import Mathlib

/-!
Shallow embedding of the ISR (instrument signature removal) correction
stages of the `ip_isr` repository, from
`src/python/lsst/ip/isr/Isr.py` and `src/python/lsst/ip/isr/IsrStages.py`.

Pixel planes are modelled over the rationals.  Operations that the Python
code delegates to the external `lsst.afw` library (masked-image arithmetic,
the statistics utility) are embedded according to the interface the spec
gives for those collaborators: an additive correction touches only the
image plane, a multiplicative correction scales the variance by the square
of the factor, and the statistics utility returns the arithmetic mean or
the median of the pixels it is handed.  Python exceptions are modelled by
an `Except` result whose error case also carries the exposure in the
partially mutated state it had when the exception was raised.
-/

namespace IpIsr

/-- An image plane: a list of rows of rational pixel values. -/
abbrev Image := List (List ℚ)

/-- A mask plane: a list of rows of per-pixel bitfields. -/
abbrev MaskImage := List (List ℕ)

/-- Pixel accessor with default 0 outside the stored area. -/
def Image.pix (im : Image) (i j : ℕ) : ℚ := (im.getD i []).getD j 0

/-- Mask accessor with default 0 outside the stored area. -/
def MaskImage.pix (m : MaskImage) (i j : ℕ) : ℕ := (m.getD i []).getD j 0

/-- Pointwise map over an image. -/
def mapImage (f : ℚ → ℚ) (a : Image) : Image := a.map (fun row => row.map f)

/-- Pointwise combination of two images (truncating to the common area,
as the afw operators require identical dimensions). -/
def zipImage (f : ℚ → ℚ → ℚ) (a b : Image) : Image :=
  List.zipWith (fun ra rb => List.zipWith f ra rb) a b

/-- Metadata values: the Python PropertySet stores (here) strings and numbers. -/
inductive MetaVal where
  | str (s : String)
  | num (q : ℚ)
deriving DecidableEq, Repr

/-- The metadata map of an exposure or calibration product. -/
abbrev Metadata := List (String × MetaVal)

/-- `metadata.exists(key)` of the Python PropertySet. -/
def Metadata.existsKey (m : Metadata) (k : String) : Bool := (m.lookup k).isSome

/-- `metadata.getString(key)`: `none` when the key is absent or non-string. -/
def Metadata.getString (m : Metadata) (k : String) : Option String :=
  match m.lookup k with
  | some (.str s) => some s
  | _ => none

/-- `metadata.get(key)` / `metadata.getDouble(key)` for numeric entries. -/
def Metadata.getNum (m : Metadata) (k : String) : Option ℚ :=
  match m.lookup k with
  | some (.num q) => some q
  | _ => none

/-- `metadata.setString(key, value)`: replaces any previous entry. -/
def Metadata.setString (m : Metadata) (k v : String) : Metadata :=
  (k, .str v) :: m.filter (fun kv => kv.1 != k)

/-- `metadata.remove(key)`. -/
def Metadata.remove (m : Metadata) (k : String) : Metadata :=
  m.filter (fun kv => kv.1 != k)

/-- A masked image: image, mask and variance planes. -/
structure MaskedImage where
  image : Image
  mask : MaskImage
  variance : Image
deriving DecidableEq, Repr

/-- An exposure: a masked image, a metadata map and a coordinate origin. -/
structure Exposure where
  mi : MaskedImage
  metadata : Metadata
  xy0 : ℕ × ℕ
deriving DecidableEq, Repr

/-- A bounding box, `afwImage.BBox` style: lower-left corner plus extents. -/
structure BBox where
  x0 : ℕ
  y0 : ℕ
  width : ℕ
  height : ℕ
deriving DecidableEq, Repr

/-- Dimensions of a bounding box (`getDimensions`). -/
def BBox.dims (b : BBox) : ℕ × ℕ := (b.width, b.height)

/-- Membership of a pixel coordinate (column `x`, row `y`) in a box. -/
def BBox.containsB (b : BBox) (x y : ℕ) : Bool :=
  decide (b.x0 ≤ x) && decide (x < b.x0 + b.width) &&
  decide (b.y0 ≤ y) && decide (y < b.y0 + b.height)

/-- The sub-image of `im` selected by a bounding box. -/
def subImage (im : Image) (b : BBox) : Image :=
  ((im.drop b.y0).take b.height).map (fun row => (row.drop b.x0).take b.width)

/-- Restriction of a mask plane to a bounding box. -/
def subMask (m : MaskImage) (b : BBox) : MaskImage :=
  ((m.drop b.y0).take b.height).map (fun row => (row.drop b.x0).take b.width)

/-- Sub-masked-image selected by a bounding box (`ExposureF(exposure, bbox)`). -/
def subMaskedImage (mi : MaskedImage) (b : BBox) : MaskedImage :=
  { image := subImage mi.image b
    mask := subMask mi.mask b
    variance := subImage mi.variance b }

/-- The statistics utility in `MEAN` mode: arithmetic mean of the pixels. -/
def imageMean (im : Image) : ℚ := im.flatten.sum / (im.flatten.length : ℚ)

/-- Median of a list of rationals: middle of the sorted list, averaging the
two central elements when the count is even. -/
def medianOfList (l : List ℚ) : ℚ :=
  let s := l.insertionSort (· ≤ ·)
  let n := l.length
  if n = 0 then 0
  else if n % 2 = 1 then s.getD (n / 2) 0
  else (s.getD (n / 2 - 1) 0 + s.getD (n / 2) 0) / 2

/-- The statistics utility in `MEDIAN` mode. -/
def imageMedian (im : Image) : ℚ := medianOfList im.flatten

/-- Mask-plane name-to-bit dictionary; the spec fixes `BAD`, `SAT`, `INTRP`
as well-known plane names. -/
def maskPlaneBit (name : String) : ℕ :=
  if name = "BAD" then 1
  else if name = "SAT" then 2
  else if name = "INTRP" then 4
  else 8

end IpIsr

namespace IpIsr

/-- Python exceptions raised by the stages, distinguished by the raise form
used in the source: `'... not implemented'` messages, `'... an invalid ...
type'` messages, missing-metadata-key lookups, the C++ datasec failure
`'Cannot parse ...'`, and a Python `NameError` from evaluating an unbound
name. -/
inductive IsrError where
  | notImplemented (msg : String)
  | invalidConfiguration (msg : String)
  | missingKey (key : String)
  | cannotParse (s : String)
  | nameError (name : String)
deriving DecidableEq, Repr

/-- Result of a stage: either the corrected exposure, or the raised error
together with the exposure in the state it had when the raise happened. -/
abbrev IsrResult := Except (IsrError × Exposure) Exposure

/-- Stage signature `isrLib.ISR_LIN`; the constants are exported by the
compiled isrLib extension (not in the Python tree), modelled as distinct
metadata key strings. -/
def ISR_LIN : String := "ISR_LIN"

/-- Stage signature `isrLib.ISR_OSCAN`. -/
def ISR_OSCAN : String := "ISR_OSCAN"

/-- Stage signature `isrLib.ISR_TRIM`. -/
def ISR_TRIM : String := "ISR_TRIM"

/-- Stage signature `isrLib.ISR_BIAS`. -/
def ISR_BIAS : String := "ISR_BIAS"

/-- Stage signature `isrLib.ISR_DARK`. -/
def ISR_DARK : String := "ISR_DARK"

/-- Stage signature `isrLib.ISR_DFLAT`. -/
def ISR_DFLAT : String := "ISR_DFLAT"

/-- Stage signature `isrLib.ISR_SAT`. -/
def ISR_SAT : String := "ISR_SAT"

/-- Stage signature `isrLib.ISR_BADP`. -/
def ISR_BADP : String := "ISR_BADP"

/-- Stage signature `isrLib.ISR_CRREJ`. -/
def ISR_CRREJ : String := "ISR_CRREJ"

/-- Modelled from the spec: the lookup tables
(`isrLib.LookupTableReplaceF` / `isrLib.LookupTableMultiplicativeF`) live in
the compiled isrLib extension, which is not part of the Python tree.  Per
the spec a table is an ordered value sequence with a replace or a
multiplicative application mode. -/
inductive LookupTable where
  | replaceTable (values : List ℚ)
  | multiplicativeTable (values : List ℚ)
deriving DecidableEq, Repr

/-- Index into a table of length `len` for a (gain-scaled) pixel value:
the floored value clamped to the table range. -/
def tableIdx (v : ℚ) (len : ℕ) : ℕ := min (Int.toNat ⌊v⌋) (len - 1)

/-- Modelled from the spec: `lookupTable.apply(mi, gain)` of the compiled
isrLib extension.  Replace mode maps each pixel through the table at its
gain-scaled index; multiplicative mode multiplies each pixel by the table
entry at that index. -/
def LookupTable.apply (t : LookupTable) (mi : MaskedImage) (gain : ℚ) : MaskedImage :=
  match t with
  | .replaceTable vals =>
    { mi with image :=
        mapImage (fun p => vals.getD (tableIdx (p * gain) vals.length) 0) mi.image }
  | .multiplicativeTable vals =>
    { mi with image :=
        mapImage (fun p => p * vals.getD (tableIdx (p * gain) vals.length) 0) mi.image }

/-- Split a character list on a separator character (used to take the
datasec string apart the way the original regex groups do). -/
def splitOnChar (c : Char) : List Char → List (List Char)
  | [] => [[]]
  | a :: as =>
    let r := splitOnChar c as
    if a = c then [] :: r
    else
      match r with
      | [] => [[a]]
      | h :: t => (a :: h) :: t

/-- Read a non-empty all-digit character list as a natural number. -/
def digitsToNat (l : List Char) : Option ℕ :=
  match l with
  | [] => none
  | _ =>
    l.foldl (fun acc c =>
      acc.bind (fun n => if c.isDigit then some (n * 10 + (c.toNat - 48)) else none))
      (some 0)

/-- Modelled from the commented-out Python copy of `isrLib.BBoxFromDatasec`
in IsrStages.py (the live version is in the compiled extension): parse a
FITS datasec string `[c1:c2,r1:r2]` of 1-based inclusive pixel ranges into
a 0-based bounding box; `none` when the string does not match the
pattern. -/
def BBoxFromDatasec (s : String) : Option BBox :=
  match s.toList with
  | '[' :: rest =>
    match splitOnChar ',' rest with
    | [c, r] =>
      match splitOnChar ':' c, splitOnChar ':' r with
      | [c1, c2], [r1, r2raw] =>
        match r2raw.reverse with
        | ']' :: r2rev =>
          match digitsToNat c1, digitsToNat c2, digitsToNat r1, digitsToNat r2rev.reverse with
          | some sc, some ec, some sr, some er =>
            some { x0 := sc - 1, y0 := sr - 1
                   width := ec - (sc - 1), height := er - (sr - 1) }
          | _, _, _, _ => none
        | _ => none
      | _, _ => none
    | _ => none
  | _ => none

/-- The afw masked-image operator `mi -= rhs` as the spec's variance model
describes an additive correction: only the image plane changes. -/
def MaskedImage.miSub (mi rhs : MaskedImage) : MaskedImage :=
  { mi with image := zipImage (fun a b => a - b) mi.image rhs.image }

/-- The afw operator `mi.scaledMinus(c, rhs)`: subtract `c * rhs.image`
pixelwise; additive, so mask and variance stay. -/
def MaskedImage.scaledMinus (mi : MaskedImage) (c : ℚ) (rhs : MaskedImage) : MaskedImage :=
  { mi with image := zipImage (fun a b => a - c * b) mi.image rhs.image }

/-- The afw operator `mi.scaledDivides(c, rhs)`: divide the image pixelwise
by `c * rhs.image`; per the spec's variance model a multiplicative
correction by `k` scales the variance by `k ^ 2`. -/
def MaskedImage.scaledDivides (mi : MaskedImage) (c : ℚ) (rhs : MaskedImage) : MaskedImage :=
  { mi with
    image := zipImage (fun a b => a / (c * b)) mi.image rhs.image
    variance := zipImage (fun v b => v / (c * b) ^ 2) mi.variance rhs.image }

/-- The afw operator `mi -= offset` for a scalar: image plane only. -/
def MaskedImage.subScalar (mi : MaskedImage) (offset : ℚ) : MaskedImage :=
  { mi with image := mapImage (fun a => a - offset) mi.image }

end IpIsr

namespace IpIsr

namespace Isr

/-- `Isr.py biasCorrection(exposure, bias)`: `mi -= bmi`. -/
def biasCorrection (exposure bias : Exposure) : Exposure :=
  { exposure with mi := exposure.mi.miSub bias.mi }

/-- `Isr.py darkCorrection(exposure, dark, expscaling, darkscaling)`:
`scale = expscaling / darkscaling; mi.scaledMinus(scale, dark)`. -/
def darkCorrection (exposure dark : Exposure) (expscaling darkscaling : ℚ) : Exposure :=
  let scale := expscaling / darkscaling
  { exposure with mi := exposure.mi.scaledMinus scale dark.mi }

/-- `Isr.py flatCorrection(exposure, flat, scalingtype, scaling)`: pick the
flat scaling by policy (`MEAN` / `MEDIAN` / `USER`, anything else raises
with a `not implemented` message), then `mi.scaledDivides(1/flatscaling,
fmi)`. -/
def flatCorrection (exposure flat : Exposure) (scalingtype : String) (scaling : ℚ) :
    IsrResult :=
  if scalingtype = "MEAN" then
    let flatscaling := imageMean flat.mi.image
    .ok { exposure with mi := exposure.mi.scaledDivides (1 / flatscaling) flat.mi }
  else if scalingtype = "MEDIAN" then
    let flatscaling := imageMedian flat.mi.image
    .ok { exposure with mi := exposure.mi.scaledDivides (1 / flatscaling) flat.mi }
  else if scalingtype = "USER" then
    .ok { exposure with mi := exposure.mi.scaledDivides (1 / scaling) flat.mi }
  else
    .error (.notImplemented ("flatCorrection : " ++ scalingtype ++ " not implemented"),
            exposure)

/-- `Isr.py overscanCorrection(exposure, overscanBBox, fittype,
overscanKeyword)`: compute the offset from the overscan sub-image by the
selected fit type, subtract it from the whole masked image, and remove the
overscan keyword from the metadata; `POLY` raises `not implemented`, any
other fit type raises `an invalid overscan type`. -/
def overscanCorrection (exposure : Exposure) (overscanBBox : BBox) (fittype : String)
    (overscanKeyword : String) : IsrResult :=
  let overscanData := subImage exposure.mi.image overscanBBox
  if fittype = "MEAN" then
    let offset := imageMean overscanData
    .ok { exposure with
          mi := exposure.mi.subScalar offset
          metadata := exposure.metadata.remove overscanKeyword }
  else if fittype = "MEDIAN" then
    let offset := imageMedian overscanData
    .ok { exposure with
          mi := exposure.mi.subScalar offset
          metadata := exposure.metadata.remove overscanKeyword }
  else if fittype = "POLY" then
    .error (.notImplemented ("overscanCorrection : " ++ fittype ++ " not implemented"),
            exposure)
  else
    .error (.invalidConfiguration ("overscanCorrection : " ++ fittype ++
              " an invalid overscan type"), exposure)

/-- `Isr.py trimNew(exposure, ampBBox, trimsec, trimsecKeyword)`: take the
trim section from the argument or the metadata, parse it, and when its
dimensions match the amplifier box return the restricted exposure with the
origin moved to the amplifier's lower-left corner and the trim keyword
removed; on a dimension mismatch the source raises through the undefined
name `pexException` (a slip for `pexExcept`), i.e. a Python `NameError`. -/
def trimNew (exposure : Exposure) (ampBBox : BBox) (trimsec : Option String)
    (trimsecKeyword : String) : IsrResult :=
  let ts := match trimsec with
    | some s => some s
    | none => exposure.metadata.getString trimsecKeyword
  match ts with
  | none => .error (.missingKey trimsecKeyword, exposure)
  | some s =>
    match BBoxFromDatasec s with
    | none => .error (.cannotParse s, exposure)
    | some trimsecBBox =>
      if trimsecBBox.dims = ampBBox.dims then
        .ok { mi := subMaskedImage exposure.mi trimsecBBox
              metadata := exposure.metadata.remove trimsecKeyword
              xy0 := (ampBBox.x0, ampBBox.y0) }
      else
        .error (.nameError "pexException", exposure)

/-- `Isr.py linearization(exposure, lookupTable)`: read the gain from the
exposure's own metadata (`metadata.get('gain')`, which raises when absent)
and apply the lookup table with that gain. -/
def linearization (exposure : Exposure) (lookupTable : LookupTable) : IsrResult :=
  match exposure.metadata.getNum "gain" with
  | none => .error (.missingKey "gain", exposure)
  | some gain => .ok { exposure with mi := lookupTable.apply exposure.mi gain }

end Isr

end IpIsr

namespace IpIsr

/-- The per-stage configuration the IsrStages functions read from the pex
policy object, flattened into one structure (each field is a
`policy.get...` the stages perform; the policy file is static
configuration, so these lookups always succeed). -/
structure Policy where
  filenameKeyword : String
  meanCountsKeyword : String
  darkScaleKeyword : String
  flatScaleKeyword : String
  overscanKeyword : String
  overscanFitType : String
  polyOrder : ℤ
  defaultFwhm : ℚ
deriving DecidableEq, Repr

/-- A defect to be masked, carrying its footprint's bounding box. -/
structure Defect where
  bbox : BBox
deriving DecidableEq, Repr

/-- `afwDetection.setMaskFromFootprint(mask, fp, bitmask)`: OR the bitmask
into every mask pixel inside the footprint. -/
def setMaskFromFootprint (mask : MaskImage) (fp : BBox) (bitmask : ℕ) : MaskImage :=
  mask.enum.map (fun p =>
    p.2.enum.map (fun q => if fp.containsB q.1 p.1 then q.2 ||| bitmask else q.2))

namespace IsrStages

/-- `IsrStages.py BiasCorrection(exposure, bias, policy)`: skip when the
`ISR_BIAS` marker is present; otherwise read the bias frame's filename and
mean counts for the summary, subtract the bias masked image, and write the
provenance marker with the timestamp `now`. -/
def BiasCorrection (exposure bias : Exposure) (policy : Policy) (now : String) :
    IsrResult :=
  if exposure.metadata.existsKey ISR_BIAS then .ok exposure
  else
    match bias.metadata.getString policy.filenameKeyword with
    | none => .error (.missingKey policy.filenameKeyword, exposure)
    | some filename =>
      match bias.metadata.getNum policy.meanCountsKeyword with
      | none => .error (.missingKey policy.meanCountsKeyword, exposure)
      | some meanCounts =>
        let stageSummary := "using " ++ filename ++ " with mean=" ++ toString meanCounts
        .ok { exposure with
              mi := exposure.mi.miSub bias.mi
              metadata := exposure.metadata.setString ISR_BIAS (stageSummary ++ "; " ++ now) }

/-- `IsrStages.py DarkCorrection(exposure, dark, policy)`: skip when the
`ISR_DARK` marker is present; otherwise read the dark-scale keyword from
the policy, the exposure's own scale and the dark frame's own scale from
each frame's metadata, subtract the scaled dark, and write the marker. -/
def DarkCorrection (exposure dark : Exposure) (policy : Policy) (now : String) :
    IsrResult :=
  if exposure.metadata.existsKey ISR_DARK then .ok exposure
  else
    match dark.metadata.getString policy.filenameKeyword with
    | none => .error (.missingKey policy.filenameKeyword, exposure)
    | some filename =>
      match exposure.metadata.getNum policy.darkScaleKeyword with
      | none => .error (.missingKey policy.darkScaleKeyword, exposure)
      | some expscaling =>
        match dark.metadata.getNum policy.darkScaleKeyword with
        | none => .error (.missingKey policy.darkScaleKeyword, exposure)
        | some darkscaling =>
          let scale := expscaling / darkscaling
          let stageSummary := "using " ++ filename ++ " with scale=" ++ toString scale
          .ok { exposure with
                mi := exposure.mi.scaledMinus scale dark.mi
                metadata := exposure.metadata.setString ISR_DARK (stageSummary ++ "; " ++ now) }

/-- `IsrStages.py FlatCorrection(exposure, flat, policy)`: skip when the
`ISR_DFLAT` marker is present; otherwise read the flat scaling from the
flat frame's metadata, divide by the scaled flat, and write the marker. -/
def FlatCorrection (exposure flat : Exposure) (policy : Policy) (now : String) :
    IsrResult :=
  if exposure.metadata.existsKey ISR_DFLAT then .ok exposure
  else
    match flat.metadata.getString policy.filenameKeyword with
    | none => .error (.missingKey policy.filenameKeyword, exposure)
    | some filename =>
      match flat.metadata.getNum policy.flatScaleKeyword with
      | none => .error (.missingKey policy.flatScaleKeyword, exposure)
      | some flatscaling =>
        let stageSummary := "using " ++ filename ++ " with scale=" ++ toString flatscaling
        .ok { exposure with
              mi := exposure.mi.scaledDivides (1 / flatscaling) flat.mi
              metadata := exposure.metadata.setString ISR_DFLAT (stageSummary ++ "; " ++ now) }

/-- `IsrStages.py OverscanCorrection(exposure, policy)`: skip when the
`ISR_OSCAN` marker is present; otherwise read the overscan datasec from
the metadata, parse it, fit by the policy's fit type (`MEAN` / `MEDIAN`
subtract a scalar from the whole masked image, `POLY` raises `not
implemented`, anything else raises `an invalid overscan type`), and only
on success write the marker. -/
def OverscanCorrection (exposure : Exposure) (policy : Policy) (now : String) :
    IsrResult :=
  if exposure.metadata.existsKey ISR_OSCAN then .ok exposure
  else
    match exposure.metadata.getString policy.overscanKeyword with
    | none => .error (.missingKey policy.overscanKeyword, exposure)
    | some overscan =>
      match BBoxFromDatasec overscan with
      | none => .error (.cannotParse overscan, exposure)
      | some overscanBBox =>
        let overscanData := subImage exposure.mi.image overscanBBox
        if policy.overscanFitType = "MEAN" then
          let offset := imageMean overscanData
          let stageSummary := "using overscan section " ++ overscan ++ " with " ++
            policy.overscanFitType ++ "=" ++ toString offset
          .ok { exposure with
                mi := exposure.mi.subScalar offset
                metadata := exposure.metadata.setString ISR_OSCAN (stageSummary ++ "; " ++ now) }
        else if policy.overscanFitType = "MEDIAN" then
          let offset := imageMedian overscanData
          let stageSummary := "using overscan section " ++ overscan ++ " with " ++
            policy.overscanFitType ++ "=" ++ toString offset
          .ok { exposure with
                mi := exposure.mi.subScalar offset
                metadata := exposure.metadata.setString ISR_OSCAN (stageSummary ++ "; " ++ now) }
        else if policy.overscanFitType = "POLY" then
          .error (.notImplemented ("lsst.ip.isr.overscancorrection : " ++
                    policy.overscanFitType ++ " not implemented"), exposure)
        else
          .error (.invalidConfiguration ("lsst.ip.isr.overscancorrection : " ++
                    policy.overscanFitType ++ " an invalid overscan type"), exposure)

/-- `IsrStages.py MaskBadPixelsDef(exposure, policy, defectList,
interpolate)`: skip when the `ISR_BADP` marker is present; otherwise OR
the mask bit of `maskName` into every defect footprint.  With
`interpolate` true, the interpolation loop `for fp in fpList` then
evaluates the name `fpList`, which is bound nowhere in this function, so
Python raises a `NameError` with the mask already mutated and the marker
not yet written; without interpolation the marker is written. -/
def MaskBadPixelsDef (exposure : Exposure) (policy : Policy) (defectList : List Defect)
    (interpolate : Bool) (maskName : String) (now : String) : IsrResult :=
  if exposure.metadata.existsKey ISR_BADP then .ok exposure
  else
    let bitmask := maskPlaneBit maskName
    let mask1 := defectList.foldl
      (fun m d => setMaskFromFootprint m d.bbox bitmask) exposure.mi.mask
    let e1 := { exposure with mi := { exposure.mi with mask := mask1 } }
    if interpolate then
      .error (.nameError "fpList", e1)
    else
      .ok { e1 with
            metadata := e1.metadata.setString ISR_BADP ("without interpolation; " ++ now) }

end IsrStages

end IpIsr

namespace IpIsr

/-- Looking up a key in a metadata list from which it was filtered out
finds nothing. -/
theorem lookup_filter_ne (m : Metadata) (k : String) :
    (m.filter (fun kv => kv.1 != k)).lookup k = none := by
  induction m with
  | nil => rfl
  | cons a t ih =>
    by_cases h : a.1 = k
    · simp [List.filter_cons, h, ih]
    · have hk : (k == a.1) = false := by
        simp only [beq_eq_false_iff_ne]
        exact fun he => h he.symm
      simp only [List.filter_cons]
      rw [if_pos (by simp [h])]
      simp [List.lookup, hk, ih]

/-- After `setString k v` the key `k` exists. -/
theorem existsKey_setString_self (m : Metadata) (k v : String) :
    (m.setString k v).existsKey k = true := by
  simp [Metadata.setString, Metadata.existsKey, List.lookup]

/-- After `remove k` the key `k` no longer exists. -/
theorem existsKey_remove_self (m : Metadata) (k : String) :
    (m.remove k).existsKey k = false := by
  simp [Metadata.remove, Metadata.existsKey, lookup_filter_ne]

/-- Pointwise description of `mapImage` inside the stored area. -/
theorem pix_mapImage (f : ℚ → ℚ) (a : Image) (i j : ℕ)
    (hi : i < a.length) (hj : j < (a.getD i []).length) :
    (mapImage f a).pix i j = f (a.pix i j) := by
  unfold mapImage Image.pix
  have hi2 : i < (a.map (fun row => row.map f)).length := by simpa using hi
  rw [List.getD_eq_getElem _ _ hi2, List.getElem_map]
  rw [List.getD_eq_getElem _ _ hi] at hj
  rw [List.getD_eq_getElem _ _ hi]
  have hj2 : j < (a[i].map f).length := by simpa using hj
  rw [List.getD_eq_getElem _ _ hj2, List.getElem_map, List.getD_eq_getElem _ _ hj]

/-- Pointwise description of `zipImage` inside the common stored area. -/
theorem pix_zipImage (f : ℚ → ℚ → ℚ) (a b : Image) (i j : ℕ)
    (hia : i < a.length) (hib : i < b.length)
    (hja : j < (a.getD i []).length) (hjb : j < (b.getD i []).length) :
    (zipImage f a b).pix i j = f (a.pix i j) (b.pix i j) := by
  unfold zipImage Image.pix
  have hi2 : i < (List.zipWith (fun ra rb => List.zipWith f ra rb) a b).length := by
    rw [List.length_zipWith]
    exact lt_min hia hib
  rw [List.getD_eq_getElem _ _ hi2, List.getElem_zipWith]
  rw [List.getD_eq_getElem _ _ hia] at hja
  rw [List.getD_eq_getElem _ _ hib] at hjb
  rw [List.getD_eq_getElem _ _ hia, List.getD_eq_getElem _ _ hib]
  have hj2 : j < (List.zipWith f a[i] b[i]).length := by
    rw [List.length_zipWith]
    exact lt_min hja hjb
  rw [List.getD_eq_getElem _ _ hj2, List.getElem_zipWith,
    List.getD_eq_getElem _ _ hja, List.getD_eq_getElem _ _ hjb]

/-- `setMaskFromFootprint` keeps the number of rows. -/
theorem setMaskFromFootprint_length (m : MaskImage) (fp : BBox) (bit : ℕ) :
    (setMaskFromFootprint m fp bit).length = m.length := by
  simp [setMaskFromFootprint, List.enum_length]

/-- `setMaskFromFootprint` keeps each row's length. -/
theorem setMaskFromFootprint_rowlen (m : MaskImage) (fp : BBox) (bit : ℕ) (i : ℕ)
    (hi : i < m.length) :
    ((setMaskFromFootprint m fp bit).getD i []).length = (m.getD i []).length := by
  unfold setMaskFromFootprint
  have hi2 : i < (m.enum.map (fun p =>
      p.2.enum.map (fun q => if fp.containsB q.1 p.1 then q.2 ||| bit else q.2))).length := by
    simpa [List.enum_length] using hi
  rw [List.getD_eq_getElem _ _ hi2, List.getElem_map,
    List.getElem_enum m i, List.getD_eq_getElem _ _ hi]
  simp [List.enum_length]

/-- Pointwise description of `setMaskFromFootprint` inside the stored
area: the bitmask is ORed in exactly on the footprint. -/
theorem pix_setMaskFromFootprint (m : MaskImage) (fp : BBox) (bit : ℕ) (i j : ℕ)
    (hi : i < m.length) (hj : j < (m.getD i []).length) :
    (setMaskFromFootprint m fp bit).pix i j =
      if fp.containsB j i then m.pix i j ||| bit else m.pix i j := by
  unfold setMaskFromFootprint MaskImage.pix
  have hi2 : i < (m.enum.map (fun p =>
      p.2.enum.map (fun q => if fp.containsB q.1 p.1 then q.2 ||| bit else q.2))).length := by
    simpa [List.enum_length] using hi
  rw [List.getD_eq_getElem _ _ hi2, List.getElem_map, List.getElem_enum m i]
  rw [List.getD_eq_getElem _ _ hi] at hj
  rw [List.getD_eq_getElem _ _ hi]
  have hj2 : j < (m[i].enum.map
      (fun q => if fp.containsB q.1 i then q.2 ||| bit else q.2)).length := by
    simpa [List.enum_length] using hj
  rw [List.getD_eq_getElem _ _ hj2, List.getElem_map, List.getElem_enum m[i] j,
    List.getD_eq_getElem _ _ hj]

/-- Folding the defect-masking step keeps the number of rows. -/
theorem foldl_setMask_length (bit : ℕ) (l : List Defect) (m : MaskImage) :
    (l.foldl (fun mm d => setMaskFromFootprint mm d.bbox bit) m).length = m.length := by
  induction l generalizing m with
  | nil => rfl
  | cons d ds ih => rw [List.foldl_cons, ih, setMaskFromFootprint_length]

/-- Folding the defect-masking step keeps each row's length. -/
theorem foldl_setMask_rowlen (bit : ℕ) (l : List Defect) (m : MaskImage) (i : ℕ)
    (hi : i < m.length) :
    ((l.foldl (fun mm d => setMaskFromFootprint mm d.bbox bit) m).getD i []).length =
      (m.getD i []).length := by
  induction l generalizing m with
  | nil => rfl
  | cons d ds ih =>
    rw [List.foldl_cons, ih (setMaskFromFootprint m d.bbox bit)
      (by rw [setMaskFromFootprint_length]; exact hi),
      setMaskFromFootprint_rowlen _ _ _ _ hi]

/-- Closed form of the defect-masking fold: a mask pixel gets the bitmask
ORed in exactly when it lies in some defect's footprint. -/
theorem pix_foldl_setMask (bit : ℕ) (l : List Defect) (m : MaskImage) (i j : ℕ)
    (hi : i < m.length) (hj : j < (m.getD i []).length) :
    (l.foldl (fun mm d => setMaskFromFootprint mm d.bbox bit) m).pix i j =
      if l.any (fun d => d.bbox.containsB j i) then m.pix i j ||| bit
      else m.pix i j := by
  induction l generalizing m with
  | nil => simp
  | cons d ds ih =>
    rw [List.foldl_cons]
    rw [ih (setMaskFromFootprint m d.bbox bit)
      (by rw [setMaskFromFootprint_length]; exact hi)
      (by rw [setMaskFromFootprint_rowlen _ _ _ _ hi]; exact hj)]
    rw [pix_setMaskFromFootprint _ _ _ _ _ hi hj]
    cases hc : d.bbox.containsB j i
    · simp [List.any_cons, hc]
    · cases hds : ds.any (fun d => d.bbox.containsB j i)
      · simp [List.any_cons, hc, hds]
      · simp [List.any_cons, hc, hds, Nat.or_assoc, Nat.or_self]

end IpIsr

namespace IpIsr

/-- A small concrete masked image used to exercise the stages. -/
def sampleMi : MaskedImage :=
  { image := [[4, 6], [8, 10]]
    mask := [[0, 0], [0, 0]]
    variance := [[1, 2], [3, 4]] }

/-- A concrete raw exposure: gain 2, exposure time 10, a trim section. -/
def sampleExposure : Exposure :=
  { mi := sampleMi
    metadata := [("gain", .num 2), ("EXPTIME", .num 10), ("trimsec", .str "[1:2,1:2]")]
    xy0 := (0, 0) }

/-- A concrete bias calibration frame of constant value 1. -/
def sampleBias : Exposure :=
  { mi := { image := [[1, 1], [1, 1]], mask := [[0, 0], [0, 0]], variance := [[0, 0], [0, 0]] }
    metadata := [("filename", .str "bias.fits"), ("meanCounts", .num 1)]
    xy0 := (0, 0) }

/-- A concrete dark calibration frame of constant rate 3, recorded at
exposure time 5. -/
def sampleDark : Exposure :=
  { mi := { image := [[3, 3], [3, 3]], mask := [[0, 0], [0, 0]], variance := [[0, 0], [0, 0]] }
    metadata := [("filename", .str "dark.fits"), ("EXPTIME", .num 5)]
    xy0 := (0, 0) }

/-- A concrete flat calibration frame of constant value 2. -/
def sampleFlat : Exposure :=
  { mi := { image := [[2, 2], [2, 2]], mask := [[0, 0], [0, 0]], variance := [[0, 0], [0, 0]] }
    metadata := [("filename", .str "flat.fits"), ("flatScale", .num 2)]
    xy0 := (0, 0) }

/-- An exposure on which the bias, dark and flat markers are already set. -/
def markedExposure : Exposure :=
  { mi := sampleMi
    metadata := [(ISR_BIAS, .str "done; t0"), (ISR_DARK, .str "done; t0"),
                 (ISR_DFLAT, .str "done; t0"), ("EXPTIME", .num 10)]
    xy0 := (0, 0) }

/-- A concrete stage policy. -/
def samplePolicy : Policy :=
  { filenameKeyword := "filename"
    meanCountsKeyword := "meanCounts"
    darkScaleKeyword := "EXPTIME"
    flatScaleKeyword := "flatScale"
    overscanKeyword := "overscan"
    overscanFitType := "MEAN"
    polyOrder := 1
    defaultFwhm := 1 }

/-- Equality of stage results is decidable, so concrete runs can be
checked by evaluation. -/
instance : DecidableEq IsrResult := fun a b =>
  match a, b with
  | .ok x, .ok y =>
    if h : x = y then .isTrue (congrArg Except.ok h)
    else .isFalse (fun hc => h (Except.ok.inj hc))
  | .error x, .error y =>
    if h : x = y then .isTrue (congrArg Except.error h)
    else .isFalse (fun hc => h (Except.error.inj hc))
  | .ok _, .error _ => .isFalse (fun hc => Except.noConfusion hc)
  | .error _, .ok _ => .isFalse (fun hc => Except.noConfusion hc)

/-- Does a stage result carry an invalid-configuration (`an invalid ...
type`) error? -/
def isInvalidConfigResult : IsrResult → Bool
  | .error (.invalidConfiguration _, _) => true
  | _ => false

/-- C4: bias correction subtracts the bias frame's image pixel-for-pixel
from the exposure's image with no scaling: at every stored pixel,
`result.image = input.image - bias.image`. -/
theorem bias_subtracts_pixelwise (e b : Exposure) (i j : ℕ)
    (hie : i < e.mi.image.length) (hib : i < b.mi.image.length)
    (hje : j < (e.mi.image.getD i []).length) (hjb : j < (b.mi.image.getD i []).length) :
    (Isr.biasCorrection e b).mi.image.pix i j =
      e.mi.image.pix i j - b.mi.image.pix i j := by
  simp only [Isr.biasCorrection, MaskedImage.miSub]
  exact pix_zipImage _ _ _ _ _ hie hib hje hjb

/-- Closed instance of `bias_subtracts_pixelwise` at a concrete pixel. -/
theorem bias_subtracts_pixelwise_witness :
    (Isr.biasCorrection sampleExposure sampleBias).mi.image.pix 0 1 =
      sampleExposure.mi.image.pix 0 1 - sampleBias.mi.image.pix 0 1 :=
  bias_subtracts_pixelwise sampleExposure sampleBias 0 1
    (by decide) (by decide) (by decide) (by decide)

/-- C2: the additive correction stages — overscan offset subtraction,
bias subtraction, dark subtraction — leave the exposure's variance plane
(and mask plane) unchanged; only the image plane is modified. -/
theorem additive_stages_preserve_variance (e b d e1 : Exposure) (ts ds : ℚ)
    (bbox : BBox) (ft kw : String)
    (hov : Isr.overscanCorrection e bbox ft kw = .ok e1) :
    (Isr.biasCorrection e b).mi.variance = e.mi.variance ∧
    (Isr.biasCorrection e b).mi.mask = e.mi.mask ∧
    (Isr.darkCorrection e d ts ds).mi.variance = e.mi.variance ∧
    (Isr.darkCorrection e d ts ds).mi.mask = e.mi.mask ∧
    e1.mi.variance = e.mi.variance ∧ e1.mi.mask = e.mi.mask := by
  refine ⟨rfl, rfl, rfl, rfl, ?_⟩
  unfold Isr.overscanCorrection at hov
  split_ifs at hov
  all_goals first
    | (injection hov with h2; subst h2; exact ⟨rfl, rfl⟩)
    | simp at hov

/-- Closed instance of `additive_stages_preserve_variance` at concrete
exposures and a concrete successful overscan run. -/
theorem additive_stages_preserve_variance_witness :
    (Isr.biasCorrection sampleExposure sampleBias).mi.variance =
        sampleExposure.mi.variance ∧
    (Isr.biasCorrection sampleExposure sampleBias).mi.mask = sampleExposure.mi.mask ∧
    (Isr.darkCorrection sampleExposure sampleDark 10 5).mi.variance =
        sampleExposure.mi.variance ∧
    (Isr.darkCorrection sampleExposure sampleDark 10 5).mi.mask = sampleExposure.mi.mask ∧
    (({ sampleExposure with
        mi := sampleExposure.mi.subScalar 4
        metadata := sampleExposure.metadata.remove "overscan" } : Exposure)).mi.variance =
        sampleExposure.mi.variance ∧
    (({ sampleExposure with
        mi := sampleExposure.mi.subScalar 4
        metadata := sampleExposure.metadata.remove "overscan" } : Exposure)).mi.mask =
        sampleExposure.mi.mask :=
  additive_stages_preserve_variance sampleExposure sampleBias sampleDark
    { sampleExposure with
      mi := sampleExposure.mi.subScalar 4
      metadata := sampleExposure.metadata.remove "overscan" }
    10 5 { x0 := 0, y0 := 0, width := 1, height := 1 } "MEAN" "overscan"
    (by norm_num [Isr.overscanCorrection, imageMean, subImage, sampleExposure, sampleMi,
      Metadata.remove, MaskedImage.subScalar, mapImage, List.filter])

/-- C9: linearization reads the gain from the exposure's own `gain`
metadata entry and passes exactly that value to the lookup-table
application. -/
theorem linearization_gain_from_metadata (e : Exposure) (t : LookupTable) (g : ℚ)
    (hg : e.metadata.getNum "gain" = some g) :
    Isr.linearization e t = .ok { e with mi := t.apply e.mi g } := by
  unfold Isr.linearization
  rw [hg]

/-- Closed instance of `linearization_gain_from_metadata`: the gain 2
recorded on the sample exposure is the one handed to the table. -/
theorem linearization_gain_from_metadata_witness :
    Isr.linearization sampleExposure (.replaceTable [5, 6, 7, 8, 9]) =
      .ok { sampleExposure with
            mi := LookupTable.apply (.replaceTable [5, 6, 7, 8, 9]) sampleExposure.mi 2 } :=
  linearization_gain_from_metadata sampleExposure (.replaceTable [5, 6, 7, 8, 9]) 2 rfl

end IpIsr

namespace IpIsr

/-- C3: the overscan fit types: `MEAN` subtracts the arithmetic mean of
the overscan pixels and `MEDIAN` their median; `POLY` fails with the
not-implemented error and any other fit type fails with the
invalid-configuration error, and both failures carry the exposure with
its metadata exactly as it was, hence unmarked for the overscan stage. -/
theorem overscan_fit_types (e : Exposure) (bbox : BBox) (kw ft : String)
    (h1 : ft ≠ "MEAN") (h2 : ft ≠ "MEDIAN") (h3 : ft ≠ "POLY") :
    Isr.overscanCorrection e bbox "MEAN" kw =
      .ok { e with mi := e.mi.subScalar (imageMean (subImage e.mi.image bbox))
                   metadata := e.metadata.remove kw } ∧
    Isr.overscanCorrection e bbox "MEDIAN" kw =
      .ok { e with mi := e.mi.subScalar (imageMedian (subImage e.mi.image bbox))
                   metadata := e.metadata.remove kw } ∧
    Isr.overscanCorrection e bbox "POLY" kw =
      .error (.notImplemented "overscanCorrection : POLY not implemented", e) ∧
    Isr.overscanCorrection e bbox ft kw =
      .error (.invalidConfiguration
        ("overscanCorrection : " ++ ft ++ " an invalid overscan type"), e) := by
  refine ⟨by simp [Isr.overscanCorrection], by simp [Isr.overscanCorrection],
    by simp [Isr.overscanCorrection], by simp [Isr.overscanCorrection, h1, h2, h3]⟩

/-- Closed instance of `overscan_fit_types` at the fit type `BOGUS`. -/
theorem overscan_fit_types_witness :
    Isr.overscanCorrection sampleExposure { x0 := 0, y0 := 0, width := 1, height := 1 }
        "MEAN" "overscan" =
      .ok { sampleExposure with
            mi := sampleExposure.mi.subScalar
              (imageMean (subImage sampleExposure.mi.image
                { x0 := 0, y0 := 0, width := 1, height := 1 }))
            metadata := sampleExposure.metadata.remove "overscan" } ∧
    Isr.overscanCorrection sampleExposure { x0 := 0, y0 := 0, width := 1, height := 1 }
        "MEDIAN" "overscan" =
      .ok { sampleExposure with
            mi := sampleExposure.mi.subScalar
              (imageMedian (subImage sampleExposure.mi.image
                { x0 := 0, y0 := 0, width := 1, height := 1 }))
            metadata := sampleExposure.metadata.remove "overscan" } ∧
    Isr.overscanCorrection sampleExposure { x0 := 0, y0 := 0, width := 1, height := 1 }
        "POLY" "overscan" =
      .error (.notImplemented "overscanCorrection : POLY not implemented", sampleExposure) ∧
    Isr.overscanCorrection sampleExposure { x0 := 0, y0 := 0, width := 1, height := 1 }
        "BOGUS" "overscan" =
      .error (.invalidConfiguration
        ("overscanCorrection : " ++ "BOGUS" ++ " an invalid overscan type"), sampleExposure) :=
  overscan_fit_types sampleExposure { x0 := 0, y0 := 0, width := 1, height := 1 }
    "overscan" "BOGUS" (by decide) (by decide) (by decide)

/-- C7: with the `MEAN` or `MEDIAN` fit the computed offset is subtracted
from every pixel of the full image area (not only the overscan strip),
and the overscan keyword is absent from the returned metadata. -/
theorem overscan_full_area_and_key_removed (e : Exposure) (bbox : BBox) (kw : String)
    (i j : ℕ) (hi : i < e.mi.image.length) (hj : j < (e.mi.image.getD i []).length) :
    (∃ e1, Isr.overscanCorrection e bbox "MEAN" kw = .ok e1 ∧
      e1.mi.image.pix i j =
        e.mi.image.pix i j - imageMean (subImage e.mi.image bbox) ∧
      e1.metadata.existsKey kw = false) ∧
    (∃ e1, Isr.overscanCorrection e bbox "MEDIAN" kw = .ok e1 ∧
      e1.mi.image.pix i j =
        e.mi.image.pix i j - imageMedian (subImage e.mi.image bbox) ∧
      e1.metadata.existsKey kw = false) := by
  constructor
  · exact ⟨{ e with
      mi := e.mi.subScalar (imageMean (subImage e.mi.image bbox))
      metadata := e.metadata.remove kw },
      by simp [Isr.overscanCorrection],
      by simpa [MaskedImage.subScalar] using
        pix_mapImage (fun a => a - imageMean (subImage e.mi.image bbox)) e.mi.image i j hi hj,
      existsKey_remove_self _ _⟩
  · exact ⟨{ e with
      mi := e.mi.subScalar (imageMedian (subImage e.mi.image bbox))
      metadata := e.metadata.remove kw },
      by simp [Isr.overscanCorrection],
      by simpa [MaskedImage.subScalar] using
        pix_mapImage (fun a => a - imageMedian (subImage e.mi.image bbox)) e.mi.image i j hi hj,
      existsKey_remove_self _ _⟩

/-- Closed instance of `overscan_full_area_and_key_removed` at a pixel
outside the overscan strip. -/
theorem overscan_full_area_and_key_removed_witness :
    (∃ e1, Isr.overscanCorrection sampleExposure
        { x0 := 0, y0 := 0, width := 1, height := 1 } "MEAN" "overscan" = .ok e1 ∧
      e1.mi.image.pix 1 1 =
        sampleExposure.mi.image.pix 1 1 -
          imageMean (subImage sampleExposure.mi.image
            { x0 := 0, y0 := 0, width := 1, height := 1 }) ∧
      e1.metadata.existsKey "overscan" = false) ∧
    (∃ e1, Isr.overscanCorrection sampleExposure
        { x0 := 0, y0 := 0, width := 1, height := 1 } "MEDIAN" "overscan" = .ok e1 ∧
      e1.mi.image.pix 1 1 =
        sampleExposure.mi.image.pix 1 1 -
          imageMedian (subImage sampleExposure.mi.image
            { x0 := 0, y0 := 0, width := 1, height := 1 }) ∧
      e1.metadata.existsKey "overscan" = false) :=
  overscan_full_area_and_key_removed sampleExposure
    { x0 := 0, y0 := 0, width := 1, height := 1 } "overscan" 1 1 (by decide) (by decide)

end IpIsr

namespace IpIsr

/-- A present `ISR_BIAS` marker makes the bias stage return its input. -/
theorem biasSkip (e b : Exposure) (p : Policy) (t : String)
    (hb : e.metadata.existsKey ISR_BIAS = true) :
    IsrStages.BiasCorrection e b p t = .ok e := by
  unfold IsrStages.BiasCorrection
  rw [if_pos hb]

/-- A present `ISR_DARK` marker makes the dark stage return its input. -/
theorem darkSkip (e d : Exposure) (p : Policy) (t : String)
    (hd : e.metadata.existsKey ISR_DARK = true) :
    IsrStages.DarkCorrection e d p t = .ok e := by
  unfold IsrStages.DarkCorrection
  rw [if_pos hd]

/-- A present `ISR_DFLAT` marker makes the flat stage return its input. -/
theorem flatSkip (e f : Exposure) (p : Policy) (t : String)
    (hf : e.metadata.existsKey ISR_DFLAT = true) :
    IsrStages.FlatCorrection e f p t = .ok e := by
  unfold IsrStages.FlatCorrection
  rw [if_pos hf]

/-- A successful bias run leaves the `ISR_BIAS` marker present. -/
theorem biasMarkerAfterRun (e b : Exposure) (p : Policy) (t : String) (e1 : Exposure)
    (h : IsrStages.BiasCorrection e b p t = .ok e1) :
    e1.metadata.existsKey ISR_BIAS = true := by
  unfold IsrStages.BiasCorrection at h
  split at h
  next hb =>
    injection h with h2
    subst h2
    assumption
  next =>
    split at h
    · simp at h
    · split at h
      · simp at h
      · injection h with h2
        subst h2
        exact existsKey_setString_self _ _ _

/-- A successful dark run leaves the `ISR_DARK` marker present. -/
theorem darkMarkerAfterRun (e d : Exposure) (p : Policy) (t : String) (e1 : Exposure)
    (h : IsrStages.DarkCorrection e d p t = .ok e1) :
    e1.metadata.existsKey ISR_DARK = true := by
  unfold IsrStages.DarkCorrection at h
  split at h
  next hd =>
    injection h with h2
    subst h2
    assumption
  next =>
    split at h
    · simp at h
    · split at h
      · simp at h
      · split at h
        · simp at h
        · injection h with h2
          subst h2
          exact existsKey_setString_self _ _ _

/-- A successful flat run leaves the `ISR_DFLAT` marker present. -/
theorem flatMarkerAfterRun (e f : Exposure) (p : Policy) (t : String) (e1 : Exposure)
    (h : IsrStages.FlatCorrection e f p t = .ok e1) :
    e1.metadata.existsKey ISR_DFLAT = true := by
  unfold IsrStages.FlatCorrection at h
  split at h
  next hf =>
    injection h with h2
    subst h2
    assumption
  next =>
    split at h
    · simp at h
    · split at h
      · simp at h
      · injection h with h2
        subst h2
        exact existsKey_setString_self _ _ _

/-- C1: when a stage's provenance marker is already present, the bias,
dark and flat stages return the exposure untouched — image, mask,
variance and metadata (including the marker and its timestamp) are
exactly the input ones — and any invocation following a successful one
is such a no-op, whatever timestamp the second call would use. -/
theorem stage_marker_skip_idempotent (e bias dark flat e1 e2 e3 : Exposure)
    (p : Policy) (now now2 : String) :
    (e.metadata.existsKey ISR_BIAS = true →
      IsrStages.BiasCorrection e bias p now = .ok e) ∧
    (e.metadata.existsKey ISR_DARK = true →
      IsrStages.DarkCorrection e dark p now = .ok e) ∧
    (e.metadata.existsKey ISR_DFLAT = true →
      IsrStages.FlatCorrection e flat p now = .ok e) ∧
    (IsrStages.BiasCorrection e bias p now = .ok e1 →
      IsrStages.BiasCorrection e1 bias p now2 = .ok e1) ∧
    (IsrStages.DarkCorrection e dark p now = .ok e2 →
      IsrStages.DarkCorrection e2 dark p now2 = .ok e2) ∧
    (IsrStages.FlatCorrection e flat p now = .ok e3 →
      IsrStages.FlatCorrection e3 flat p now2 = .ok e3) :=
  ⟨fun hb => biasSkip e bias p now hb,
   fun hd => darkSkip e dark p now hd,
   fun hf => flatSkip e flat p now hf,
   fun h => biasSkip e1 bias p now2 (biasMarkerAfterRun e bias p now e1 h),
   fun h => darkSkip e2 dark p now2 (darkMarkerAfterRun e dark p now e2 h),
   fun h => flatSkip e3 flat p now2 (flatMarkerAfterRun e flat p now e3 h)⟩

/-- Closed instance of `stage_marker_skip_idempotent` on an exposure
already carrying the three markers: both the first and a second call with
a different timestamp return it untouched. -/
theorem stage_marker_skip_idempotent_witness :
    IsrStages.BiasCorrection markedExposure sampleBias samplePolicy "t1" =
        .ok markedExposure ∧
    IsrStages.DarkCorrection markedExposure sampleDark samplePolicy "t1" =
        .ok markedExposure ∧
    IsrStages.FlatCorrection markedExposure sampleFlat samplePolicy "t1" =
        .ok markedExposure ∧
    IsrStages.BiasCorrection markedExposure sampleBias samplePolicy "t2" =
        .ok markedExposure ∧
    IsrStages.DarkCorrection markedExposure sampleDark samplePolicy "t2" =
        .ok markedExposure ∧
    IsrStages.FlatCorrection markedExposure sampleFlat samplePolicy "t2" =
        .ok markedExposure :=
  let T := stage_marker_skip_idempotent markedExposure sampleBias sampleDark sampleFlat
    markedExposure markedExposure markedExposure samplePolicy "t1" "t2"
  ⟨T.1 (by decide), T.2.1 (by decide), T.2.2.1 (by decide),
   T.2.2.2.1 (T.1 (by decide)), T.2.2.2.2.1 (T.2.1 (by decide)),
   T.2.2.2.2.2 (T.2.2.1 (by decide))⟩

end IpIsr

namespace IpIsr

/-- C5: dark correction subtracts the dark image scaled by the ratio of
the exposure's own and the dark frame's own exposure-time metadata
entries (both read under the policy's dark-scale keyword from each
frame's own metadata); variance stays and the marker is written. -/
theorem dark_scaled_subtraction (e dark : Exposure) (p : Policy) (now fn : String)
    (texp tdark : ℚ)
    (hmark : e.metadata.existsKey ISR_DARK = false)
    (hfn : dark.metadata.getString p.filenameKeyword = some fn)
    (hexp : e.metadata.getNum p.darkScaleKeyword = some texp)
    (hdark : dark.metadata.getNum p.darkScaleKeyword = some tdark) :
    ∃ e1, IsrStages.DarkCorrection e dark p now = .ok e1 ∧
      (∀ i j, i < e.mi.image.length → i < dark.mi.image.length →
        j < (e.mi.image.getD i []).length → j < (dark.mi.image.getD i []).length →
        e1.mi.image.pix i j =
          e.mi.image.pix i j - (texp / tdark) * dark.mi.image.pix i j) ∧
      e1.mi.variance = e.mi.variance ∧
      e1.metadata.existsKey ISR_DARK = true := by
  refine ⟨{ e with
    mi := e.mi.scaledMinus (texp / tdark) dark.mi
    metadata := e.metadata.setString ISR_DARK
      ("using " ++ fn ++ " with scale=" ++ toString (texp / tdark) ++ "; " ++ now) },
    ?_, ?_, rfl, existsKey_setString_self _ _ _⟩
  · unfold IsrStages.DarkCorrection
    simp only [hmark, Bool.false_eq_true, if_false, hfn, hexp, hdark]
  · intro i j hie hid hje hjd
    simp only [MaskedImage.scaledMinus]
    exact pix_zipImage (fun a b => a - texp / tdark * b) _ _ _ _ hie hid hje hjd

/-- Closed instance of `dark_scaled_subtraction`: exposure time 10 against
a dark frame recorded at 5, so the subtracted amount is twice the dark
frame's pixel value. -/
theorem dark_scaled_subtraction_witness :
    ∃ e1, IsrStages.DarkCorrection sampleExposure sampleDark samplePolicy "t1" = .ok e1 ∧
      (∀ i j, i < sampleExposure.mi.image.length → i < sampleDark.mi.image.length →
        j < (sampleExposure.mi.image.getD i []).length →
        j < (sampleDark.mi.image.getD i []).length →
        e1.mi.image.pix i j =
          sampleExposure.mi.image.pix i j -
            ((10 : ℚ) / 5) * sampleDark.mi.image.pix i j) ∧
      e1.mi.variance = sampleExposure.mi.variance ∧
      e1.metadata.existsKey ISR_DARK = true :=
  dark_scaled_subtraction sampleExposure sampleDark samplePolicy "t1" "dark.fits" 10 5
    (by decide) (by decide) (by decide) (by decide)

/-- C6 counterexample: at the unknown flat-scaling policy value `BOGUS`
the flat correction raises the `not implemented` error form, not the
invalid-configuration (`an invalid ... type`) form the claim asserts. -/
theorem flat_unknown_policy_cex :
    Isr.flatCorrection sampleExposure sampleFlat "BOGUS" 1 =
      .error (.notImplemented "flatCorrection : BOGUS not implemented", sampleExposure) ∧
    isInvalidConfigResult (Isr.flatCorrection sampleExposure sampleFlat "BOGUS" 1) = false :=
  ⟨rfl, rfl⟩

/-- Auxiliary field identity used for the flat normalization: dividing by
a flat scaled with the reciprocal normalization is multiplying by the
normalization and dividing by the flat pixel. -/
theorem flat_div_scaling (a m b : ℚ) : a / (1 / m * b) = a * m / b := by
  rw [one_div_mul_eq_div, div_div_eq_mul_div]

/-- C6 amended: flat correction computes the normalization as the mean of
the flat (`MEAN`), its median (`MEDIAN`) or the caller's constant
(`USER`), fails with the not-implemented error form for any other policy
value, and at every stored pixel
`result.image = input.image * flatNormalization / flat.image`. -/
theorem flat_normalization_amended (e f : Exposure) (st : String) (sc : ℚ) (i j : ℕ)
    (hie : i < e.mi.image.length) (hif : i < f.mi.image.length)
    (hje : j < (e.mi.image.getD i []).length) (hjf : j < (f.mi.image.getD i []).length)
    (h1 : st ≠ "MEAN") (h2 : st ≠ "MEDIAN") (h3 : st ≠ "USER") :
    (∃ e1, Isr.flatCorrection e f "MEAN" sc = .ok e1 ∧
      e1.mi.image.pix i j =
        e.mi.image.pix i j * imageMean f.mi.image / f.mi.image.pix i j) ∧
    (∃ e1, Isr.flatCorrection e f "MEDIAN" sc = .ok e1 ∧
      e1.mi.image.pix i j =
        e.mi.image.pix i j * imageMedian f.mi.image / f.mi.image.pix i j) ∧
    (∃ e1, Isr.flatCorrection e f "USER" sc = .ok e1 ∧
      e1.mi.image.pix i j = e.mi.image.pix i j * sc / f.mi.image.pix i j) ∧
    Isr.flatCorrection e f st sc =
      .error (.notImplemented ("flatCorrection : " ++ st ++ " not implemented"), e) := by
  refine ⟨⟨{ e with mi := e.mi.scaledDivides (1 / imageMean f.mi.image) f.mi },
      by simp [Isr.flatCorrection], ?_⟩,
    ⟨{ e with mi := e.mi.scaledDivides (1 / imageMedian f.mi.image) f.mi },
      by simp [Isr.flatCorrection], ?_⟩,
    ⟨{ e with mi := e.mi.scaledDivides (1 / sc) f.mi },
      by simp [Isr.flatCorrection], ?_⟩,
    by simp [Isr.flatCorrection, h1, h2, h3]⟩
  · simp only [MaskedImage.scaledDivides]
    rw [pix_zipImage _ _ _ _ _ hie hif hje hjf, flat_div_scaling]
  · simp only [MaskedImage.scaledDivides]
    rw [pix_zipImage _ _ _ _ _ hie hif hje hjf, flat_div_scaling]
  · simp only [MaskedImage.scaledDivides]
    rw [pix_zipImage _ _ _ _ _ hie hif hje hjf, flat_div_scaling]

/-- Closed instance of `flat_normalization_amended` at pixel (0, 0) and
the unknown policy value `FOO`. -/
theorem flat_normalization_amended_witness :
    (∃ e1, Isr.flatCorrection sampleExposure sampleFlat "MEAN" 7 = .ok e1 ∧
      e1.mi.image.pix 0 0 =
        sampleExposure.mi.image.pix 0 0 * imageMean sampleFlat.mi.image /
          sampleFlat.mi.image.pix 0 0) ∧
    (∃ e1, Isr.flatCorrection sampleExposure sampleFlat "MEDIAN" 7 = .ok e1 ∧
      e1.mi.image.pix 0 0 =
        sampleExposure.mi.image.pix 0 0 * imageMedian sampleFlat.mi.image /
          sampleFlat.mi.image.pix 0 0) ∧
    (∃ e1, Isr.flatCorrection sampleExposure sampleFlat "USER" 7 = .ok e1 ∧
      e1.mi.image.pix 0 0 =
        sampleExposure.mi.image.pix 0 0 * 7 / sampleFlat.mi.image.pix 0 0) ∧
    Isr.flatCorrection sampleExposure sampleFlat "FOO" 7 =
      .error (.notImplemented ("flatCorrection : " ++ "FOO" ++ " not implemented"),
              sampleExposure) :=
  flat_normalization_amended sampleExposure sampleFlat "FOO" 7 0 0
    (by decide) (by decide) (by decide) (by decide) (by decide) (by decide) (by decide)

/-- C8: at a trim section of dimensions 2 by 2 against an amplifier box
of dimensions 3 by 3 the trim stage raises through the undefined name
`pexException` — a Python `NameError` — instead of the geometry-mismatch
error the spec prescribes; the carried exposure is unchanged. -/
theorem trimNew_dim_mismatch_nameerror :
    Isr.trimNew sampleExposure { x0 := 0, y0 := 0, width := 3, height := 3 }
        none "trimsec" =
      .error (.nameError "pexException", sampleExposure) := by
  decide

/-- C10: without the bad-pixel marker and with interpolation requested,
the stage ORs the mask bit into every pixel lying in some defect
footprint and then raises the Python `NameError` on the unbound name
`fpList`; the carried state has the mutated mask but untouched image,
variance and metadata, so the provenance marker is never written. -/
theorem maskBadPixelsDef_raises_after_masking (e : Exposure) (p : Policy)
    (defectList : List Defect) (mn now : String)
    (hmark : e.metadata.existsKey ISR_BADP = false) :
    ∃ e1, IsrStages.MaskBadPixelsDef e p defectList true mn now =
        .error (.nameError "fpList", e1) ∧
      e1.metadata = e.metadata ∧
      e1.mi.image = e.mi.image ∧
      e1.mi.variance = e.mi.variance ∧
      (∀ i j, i < e.mi.mask.length → j < (e.mi.mask.getD i []).length →
        e1.mi.mask.pix i j =
          if defectList.any (fun d => d.bbox.containsB j i)
          then e.mi.mask.pix i j ||| maskPlaneBit mn
          else e.mi.mask.pix i j) := by
  refine ⟨{ e with mi := { e.mi with
      mask := defectList.foldl
        (fun m d => setMaskFromFootprint m d.bbox (maskPlaneBit mn)) e.mi.mask } },
    ?_, rfl, rfl, rfl, ?_⟩
  · unfold IsrStages.MaskBadPixelsDef
    simp only [hmark, Bool.false_eq_true, if_false, if_true]
  · intro i j hi hj
    exact pix_foldl_setMask (maskPlaneBit mn) defectList e.mi.mask i j hi hj

/-- Closed instance of `maskBadPixelsDef_raises_after_masking` on the
sample exposure with one defect and the `BAD` plane. -/
theorem maskBadPixelsDef_raises_after_masking_witness :
    ∃ e1, IsrStages.MaskBadPixelsDef sampleExposure samplePolicy
        [{ bbox := { x0 := 0, y0 := 0, width := 1, height := 1 } }] true "BAD" "t1" =
        .error (.nameError "fpList", e1) ∧
      e1.metadata = sampleExposure.metadata ∧
      e1.mi.image = sampleExposure.mi.image ∧
      e1.mi.variance = sampleExposure.mi.variance ∧
      (∀ i j, i < sampleExposure.mi.mask.length →
        j < (sampleExposure.mi.mask.getD i []).length →
        e1.mi.mask.pix i j =
          if ([({ bbox := { x0 := 0, y0 := 0, width := 1, height := 1 } } : Defect)].any
            (fun d => d.bbox.containsB j i))
          then sampleExposure.mi.mask.pix i j ||| maskPlaneBit "BAD"
          else sampleExposure.mi.mask.pix i j) :=
  maskBadPixelsDef_raises_after_masking sampleExposure samplePolicy
    [{ bbox := { x0 := 0, y0 := 0, width := 1, height := 1 } }] "BAD" "t1" (by decide)

end IpIsr
